import Mathlib

/-
Verification of the Ledger & Valuation Engine of the Financial Adviser app
(FastAPI backend under backend/app).

Modelling conventions, stated once here:

* Python `Decimal` values are modelled as exact rationals `ℚ`.  The literal
  `Numeric("0.00")` initialiser in `Portfolio.total_value` is NOT a Decimal:
  it instantiates the imported SQLAlchemy column type class, which supports
  no arithmetic or ordering dunders, so that property raises TypeError
  whenever an active holding exists and returns the type object otherwise.
  Both readings are modelled: `Portfolio.total_value_py` carries the literal
  semantics (a `PyNum` value under `Except`), and
  `Portfolio.total_value_intended` the intended Decimal sum that the spec,
  the repo tests (test_portfolios.py compares the property to
  `Decimal("16250.00")`) and the surrounding service code expect.
* Python truthiness is modelled explicitly: an optional number is truthy iff
  it is present and non-zero (`qTruthy`, `pyOrQ`, `pyOrOpt`, `intTruthy`,
  `pyOrStr` below), matching CPython semantics for `Decimal`/`int`/`str`.
* The SQLAlchemy expression `Model.is_active is True` appearing inside query
  filters is a Python identity test evaluated before the query runs; it is
  modelled by `pyIs` over a small universe of Python values (`PyVal`).
* A database session with the `db_transaction` context manager (commit on
  success, rollback on any exception) is modelled as a pure state transition
  returning either the new state or an error with the old state kept.
* `datetime.date` is modelled as `PyDate`; `date.today()` is an ambient
  input and is passed explicitly as a `today` parameter where the source
  calls it.
-/

namespace FinApp

/-- Models `datetime.date` (only the fields the code reads). -/
structure PyDate where
  year : Int
  month : Int
  day : Int
deriving DecidableEq, Repr

/-- Python truthiness of an `Optional[Decimal]`: truthy iff present and non-zero. -/
def qTruthy : Option ℚ → Bool
  | none => false
  | some q => q != 0

/-- Python `a or b` where `a : Optional[Decimal]` and the result is used as a
number: yields `b` when `a` is `None` or zero. -/
def pyOrQ : Option ℚ → ℚ → ℚ
  | some x, d => if x = 0 then d else x
  | none, d => d

/-- Python `a or b` on two `Optional[Decimal]` values. -/
def pyOrOpt : Option ℚ → Option ℚ → Option ℚ
  | some x, b => if x = 0 then b else some x
  | none, b => b

/-- Python truthiness of an `Optional[int]`. -/
def intTruthy : Option Int → Bool
  | none => false
  | some a => a != 0

/-- Python `s or d` on strings (a string is falsy iff empty). -/
def pyOrStr (s d : String) : String := if s = "" then d else s

/-- `TransactionType` from models/transaction.py. -/
inductive TransactionType
  | BUY | SELL | DIVIDEND | DISTRIBUTION | TRANSFER_IN | TRANSFER_OUT
  | SPLIT | MERGER | SPINOFF
deriving DecidableEq, Repr

/-- `SecurityType` from models/holding.py. -/
inductive SecurityType
  | STOCK | BOND | ETF | MUTUAL_FUND | CASH | CRYPTO | OTHER
deriving DecidableEq, Repr

/-- `AssetClass` from models/holding.py (a `str` enum). -/
inductive AssetClass
  | EQUITY | FIXED_INCOME | CASH | ALTERNATIVE | COMMODITY
deriving DecidableEq, Repr

/-- The `.value` string of an `AssetClass` member. -/
def AssetClass.value : AssetClass → String
  | .EQUITY => "equity"
  | .FIXED_INCOME => "fixed_income"
  | .CASH => "cash"
  | .ALTERNATIVE => "alternative"
  | .COMMODITY => "commodity"

/-- `RiskLevel` from models/portfolio.py (a `str` enum). -/
inductive RiskLevel
  | CONSERVATIVE | MODERATE | AGGRESSIVE
deriving DecidableEq, Repr

/-- The `.value` string of a `RiskLevel` member. -/
def RiskLevel.value : RiskLevel → String
  | .CONSERVATIVE => "conservative"
  | .MODERATE => "moderate"
  | .AGGRESSIVE => "aggressive"

/-- `Holding` row (models/holding.py); columns the engine reads.
`last_price_update`, `created_at`, `updated_at` carry no engine logic and are
not read by any modelled function, so they are not included. -/
structure Holding where
  id : Int := 0
  portfolio_id : Int
  symbol : String
  security_name : Option String := none
  security_type : SecurityType := .STOCK
  quantity : ℚ
  cost_basis : ℚ
  purchase_date : PyDate := ⟨2024, 1, 1⟩
  current_price : Option ℚ := none
  sector : Option String := none
  asset_class : Option AssetClass := none
  is_active : Bool := true
deriving DecidableEq, Repr

/-- `Transaction` row (models/transaction.py); columns the engine reads.
The purely descriptive columns (notes, external ids, tax lot, wash sale,
transfer counterpart ids, trade/settlement dates) carry no engine logic. -/
structure Transaction where
  id : Int := 0
  portfolio_id : Int
  type : TransactionType
  symbol : String
  security_name : Option String := none
  quantity : Option ℚ := none
  price : Option ℚ := none
  total_amount : ℚ
  fees : ℚ := 0
  transaction_date : PyDate := ⟨2024, 1, 1⟩
  is_active : Bool := true
deriving DecidableEq, Repr

/-- `Transaction.is_buy_transaction`. -/
def Transaction.is_buy_transaction (t : Transaction) : Bool :=
  t.type == .BUY || t.type == .TRANSFER_IN

/-- `Transaction.is_sell_transaction`. -/
def Transaction.is_sell_transaction (t : Transaction) : Bool :=
  t.type == .SELL || t.type == .TRANSFER_OUT

/-- `Transaction.is_income_transaction`. -/
def Transaction.is_income_transaction (t : Transaction) : Bool :=
  t.type == .DIVIDEND || t.type == .DISTRIBUTION

/-- `Transaction.net_amount`: buys/transfers-in add fees, all else subtracts. -/
def Transaction.net_amount (t : Transaction) : ℚ :=
  if t.type == .BUY || t.type == .TRANSFER_IN then t.total_amount + t.fees
  else t.total_amount - t.fees

/-- `Transaction.effective_price`: `None` when quantity is absent or zero,
else `net_amount / quantity`. -/
def Transaction.effective_price (t : Transaction) : Option ℚ :=
  match t.quantity with
  | none => none
  | some q => if q = 0 then none else some (t.net_amount / q)

/-- `Transaction.update_holding_after_transaction` (models/transaction.py
lines 110-122).  Buy-type with truthy quantity: weighted-average cost basis
with a divide-by-zero guard.  Sell-type with truthy quantity: clamp the
quantity at zero, cost basis untouched.  Anything else: no mutation.
Under the buy guard the quantity is non-zero, so `effective_price` is
present; `getD 0` merely extracts it. -/
def Transaction.update_holding_after_transaction (t : Transaction) (h : Holding) : Holding :=
  if t.is_buy_transaction && qTruthy t.quantity then
    let q := t.quantity.getD 0
    let new_total_cost := h.quantity * h.cost_basis + q * (t.effective_price).getD 0
    let new_quantity := h.quantity + q
    { h with
      cost_basis := if 0 < new_quantity then new_total_cost / new_quantity else 0,
      quantity := new_quantity }
  else if t.is_sell_transaction && qTruthy t.quantity then
    { h with quantity := max 0 (h.quantity - t.quantity.getD 0) }
  else h

/-- Applying a sequence of transactions to one holding, one at a time. -/
def applyAll (txs : List Transaction) (h : Holding) : Holding :=
  txs.foldl (fun h t => t.update_holding_after_transaction h) h

/-- Total bought quantity `Σ q_i` of a transaction list. -/
def sumQ (txs : List Transaction) : ℚ :=
  (txs.map (fun t => t.quantity.getD 0)).sum

/-- Total cost `Σ q_i * p_i` (quantity times effective price) of a transaction list. -/
def sumQP (txs : List Transaction) : ℚ :=
  (txs.map (fun t => t.quantity.getD 0 * (t.effective_price).getD 0)).sum

/-- A buy-type transaction carrying a strictly positive quantity. -/
def IsPositiveBuy (t : Transaction) : Prop :=
  t.is_buy_transaction = true ∧ ∃ q : ℚ, t.quantity = some q ∧ 0 < q

/-- Scenario A instance for C1: buy 10 at effective 150.00, buy 5 at
effective 180.00, giving quantity 15 and cost basis 160.00. -/
def h0A : Holding :=
  { portfolio_id := 1, symbol := "AAPL", quantity := 0, cost_basis := 0 }

def buyA1 : Transaction :=
  { portfolio_id := 1, type := .BUY, symbol := "AAPL",
    quantity := some 10, price := some 150, total_amount := 1500 }

def buyA2 : Transaction :=
  { portfolio_id := 1, type := .BUY, symbol := "AAPL",
    quantity := some 5, price := some 180, total_amount := 900 }

/-- Scenario B instance for C2: from quantity 15 at cost basis 160, sell 3;
quantity becomes 12 and the cost basis (and the rest of the record) is kept. -/
def hB : Holding :=
  { portfolio_id := 1, symbol := "AAPL", quantity := 15, cost_basis := 160 }

def sellB : Transaction :=
  { portfolio_id := 1, type := .SELL, symbol := "AAPL",
    quantity := some 3, price := some 200, total_amount := 600 }

/-- `Portfolio` row (models/portfolio.py) with its owned holdings; columns the
engine reads.  `risk_level` defaults to MODERATE and `rebalance_threshold`
to 5.00 as in the column definitions. -/
structure Portfolio where
  id : Int := 0
  user_id : Int := 0
  name : String := ""
  target_allocation : Option (List (String × ℚ)) := none
  risk_level : Option RiskLevel := some .MODERATE
  rebalance_threshold : ℚ := 5
  holdings : List Holding := []
  is_active : Bool := true
deriving DecidableEq, Repr

/-- The universe of Python values appearing in the query-filter expressions:
the `True`/`False` singletons and ORM column attributes (distinct objects,
one per column). -/
inductive PyVal
  | pybool : Bool → PyVal
  | pycolumn : String → PyVal
deriving DecidableEq, Repr

/-- Python `a is b` (identity).  On this universe identity coincides with
structural equality: `True` and `False` are singletons and each column
attribute is a distinct non-bool object. -/
def pyIs (a b : PyVal) : Bool := a == b

/-- The value of the Python expression `Holding.is_active is True` as written
inside the query filters (an identity test between the ORM column attribute
and the boolean `True`, evaluated before the query runs). -/
def holdingIsActiveIsTrue : Bool := pyIs (.pycolumn "Holding.is_active") (.pybool true)

/-- The value of the Python expression `Transaction.is_active is True` in the
transaction-list query filter. -/
def transactionIsActiveIsTrue : Bool := pyIs (.pycolumn "Transaction.is_active") (.pybool true)

/-- The row predicate of the active-holding lookup in
`_update_holdings_for_transaction` (endpoints/transactions.py lines 300-311):
`and_(Holding.portfolio_id == tx.portfolio_id, Holding.symbol == tx.symbol,
Holding.is_active is True)`. -/
def findExistingHoldingPred (tx : Transaction) (h : Holding) : Bool :=
  h.portfolio_id == tx.portfolio_id && h.symbol == tx.symbol && holdingIsActiveIsTrue

/-- Apply `f` to the first list element satisfying `p` (models an in-place
ORM mutation of the row returned by `.first()`); `none` when no row matches. -/
def updateFirst (p : Holding → Bool) (f : Holding → Holding) : List Holding → Option (List Holding)
  | [] => none
  | x :: xs => if p x then some (f x :: xs) else (updateFirst p f xs).map (x :: ·)

/-- The new `Holding` created by a buy with no matching existing row
(endpoints/transactions.py lines 318-329). -/
def newHoldingFromTransaction (tx : Transaction) (cb : ℚ) : Holding :=
  { portfolio_id := tx.portfolio_id, symbol := tx.symbol,
    security_name := tx.security_name, security_type := .STOCK,
    quantity := tx.quantity.getD 0, cost_basis := cb,
    purchase_date := tx.transaction_date }

/-- `_update_holdings_for_transaction` (endpoints/transactions.py lines
294-344) as a transition on the holdings table.  Errors model the raised
exceptions: the 400 no-position `HTTPException` on a sell without a matching
row, and the NOT NULL violation when a buy would create a holding with no
cost basis (`effective_price or price` both absent). -/
def updateHoldingsForTransaction (holdings : List Holding) (tx : Transaction) :
    Except String (List Holding) :=
  match tx.quantity with
  | none => .ok holdings
  | some q =>
    if q ≤ 0 then .ok holdings
    else if tx.is_buy_transaction then
      match updateFirst (findExistingHoldingPred tx)
          (tx.update_holding_after_transaction) holdings with
      | some hs => .ok hs
      | none =>
        match pyOrOpt tx.effective_price tx.price with
        | some cb => .ok (holdings ++ [newHoldingFromTransaction tx cb])
        | none => .error "NOT NULL constraint failed: holdings.cost_basis"
    else if tx.is_sell_transaction then
      match updateFirst (findExistingHoldingPred tx)
          (fun h =>
            let updated := tx.update_holding_after_transaction h
            if updated.quantity ≤ 0 then { updated with is_active := false } else updated)
          holdings with
      | some hs => .ok hs
      | none => .error ("Cannot sell " ++ tx.symbol ++ ": no existing holding found")
    else .ok holdings

/-- Persistent state touched by the transaction endpoints. -/
structure DBState where
  portfolios : List Portfolio := []
  holdings : List Holding := []
  transactions : List Transaction := []
deriving DecidableEq, Repr

/-- The `with db_transaction(db)` block of `create_transaction`
(endpoints/transactions.py lines 109-147 with utils/transactions.py
db_transaction): insert the transaction, apply the holding update, and commit
both; on any exception roll back, leaving the state unchanged and surfacing
the error. -/
def recordTransaction (db : DBState) (tx : Transaction) : DBState × Option String :=
  match updateHoldingsForTransaction db.holdings tx with
  | .ok hs => ({ db with holdings := hs, transactions := db.transactions ++ [tx] }, none)
  | .error e => (db, some e)

/-- The row set matched by the `get_transactions` base query
(endpoints/transactions.py lines 42-47): join to the portfolio of the
transaction, filter by the requesting user, and the `Transaction.is_active
is True` criterion.  Ordering and pagination drop no rows and are omitted. -/
def getTransactionsQuery (db : DBState) (userId : Int) : List Transaction :=
  db.transactions.filter (fun t =>
    (db.portfolios.any (fun p => p.id == t.portfolio_id && p.user_id == userId)) &&
      transactionIsActiveIsTrue)

/-- C3 failing input: portfolio 1 holds an active AAPL position of quantity
10; a sell of the full 10 arrives. -/
def holdingC3 : Holding :=
  { portfolio_id := 1, symbol := "AAPL", quantity := 10, cost_basis := 150 }

def dbC3 : DBState :=
  { portfolios := [{ id := 1, user_id := 1, name := "Main", holdings := [holdingC3] }],
    holdings := [holdingC3], transactions := [] }

def sellC3 : Transaction :=
  { portfolio_id := 1, type := .SELL, symbol := "AAPL",
    quantity := some 10, price := some 160, total_amount := 1600 }

/-- C4 counterexample input: one portfolio of user 1 with one inactive and
one active transaction row. -/
def inactiveTxC4 : Transaction :=
  { portfolio_id := 1, type := .BUY, symbol := "MSFT",
    quantity := some 2, price := some 100, total_amount := 200, is_active := false }

def activeTxC4 : Transaction :=
  { portfolio_id := 1, type := .BUY, symbol := "AAPL",
    quantity := some 1, price := some 50, total_amount := 50, is_active := true }

def dbC4 : DBState :=
  { portfolios := [{ id := 1, user_id := 1, name := "Main" }],
    holdings := [], transactions := [inactiveTxC4, activeTxC4] }

/-- `Holding.total_cost_basis` (models/holding.py). -/
def Holding.total_cost_basis (h : Holding) : ℚ := h.quantity * h.cost_basis

/-- `Holding.current_value`: `quantity * (current_price or cost_basis)` with
Python `or` (a present-but-zero price also falls back to the cost basis). -/
def Holding.current_value (h : Holding) : ℚ :=
  h.quantity * pyOrQ h.current_price h.cost_basis

/-- `Holding.unrealized_gain_loss`. -/
def Holding.unrealized_gain_loss (h : Holding) : ℚ :=
  h.current_value - h.total_cost_basis

/-- Loop body of `Portfolio.total_value_intended`: add `quantity * current_price` for
an active holding with a truthy price, `quantity * cost_basis` for any other
active holding, nothing for an inactive one. -/
def totalValueStep (total : ℚ) (h : Holding) : ℚ :=
  if h.is_active && qTruthy h.current_price then total + h.quantity * h.current_price.getD 0
  else if h.is_active then total + h.quantity * h.cost_basis
  else total

/-- The intended Decimal semantics of `Portfolio.total_value`
(models/portfolio.py lines 74-87) with the `Numeric("0.00")` accumulator
read as `Decimal("0.00")`: the exact sum the spec, the repo tests
(test_portfolios.py asserts `total_value == Decimal("16250.00")`) and the
rest of portfolio_service.py (which does write `Decimal("0.00")`) expect.
The literal source semantics — where `Numeric` is the imported SQLAlchemy
column type class, so the property raises TypeError whenever an active
holding exists and yields the type object otherwise — is
`Portfolio.total_value_py` below.  The recommendation/allocation models use
this intended value where the source reads the property; on every input
where the source functions return at all, the two coincide. -/
def Portfolio.total_value_intended (p : Portfolio) : ℚ :=
  p.holdings.foldl totalValueStep 0

/-- `Portfolio.total_cost_basis`. -/
def Portfolio.total_cost_basis (p : Portfolio) : ℚ :=
  ((p.holdings.filter (fun h => h.is_active)).map (fun h => h.quantity * h.cost_basis)).sum

/-- C8 counterexample input: a holding with a known price of zero. -/
def holdingC8 : Holding :=
  { portfolio_id := 1, symbol := "ZERO", quantity := 1, cost_basis := 5,
    current_price := some 0 }

/-- C8 witness input: a priceless holding. -/
def holdingC8w : Holding :=
  { portfolio_id := 1, symbol := "NOPRICE", quantity := 4, cost_basis := 25 }

/-- One element of the list returned by
`PortfolioService.calculate_asset_allocation`. -/
structure AllocationEntry where
  asset_class : String
  current_value : ℚ
  current_percent : ℚ
  target_percent : Option ℚ
  drift : Option ℚ
  needs_rebalancing : Bool
  holdings_count : Nat
deriving DecidableEq, Repr

/-- The asset-class key used when grouping: the enum value, or `"Unknown"`. -/
def holdingAssetClassName (h : Holding) : String :=
  match h.asset_class with
  | some ac => ac.value
  | none => "Unknown"

/-- Add a value to the per-asset-class accumulator (an insertion-ordered
dict of value sum and holdings count, as built by the grouping loop). -/
def addToGroup : List (String × ℚ × Nat) → String → ℚ → List (String × ℚ × Nat)
  | [], k, v => [(k, v, 1)]
  | (k', v', n) :: rest, k, v =>
    if k' == k then (k', v' + v, n + 1) :: rest
    else (k', v', n) :: addToGroup rest k v

/-- Loop body of the grouping loop in `calculate_asset_allocation`
(portfolio_service.py lines 52-70): skip inactive holdings, add
`current_value` into the asset-class bucket. -/
def groupStep (acc : List (String × ℚ × Nat)) (h : Holding) : List (String × ℚ × Nat) :=
  if h.is_active then addToGroup acc (holdingAssetClassName h) h.current_value else acc

/-- The grouping loop of `calculate_asset_allocation`. -/
def groupByAssetClass (hs : List Holding) : List (String × ℚ × Nat) :=
  hs.foldl groupStep []

/-- Build one allocation entry (portfolio_service.py lines 73-104):
`current_percent = value / total * 100`; target, drift and the rebalancing
flag come from the first case-insensitive key match in the portfolio target
allocation, when one exists. -/
def mkAllocationEntry (p : Portfolio) (total : ℚ) (g : String × ℚ × Nat) : AllocationEntry :=
  let current_percent := g.2.1 / total * 100
  match p.target_allocation with
  | none =>
    { asset_class := g.1, current_value := g.2.1, current_percent := current_percent,
      target_percent := none, drift := none, needs_rebalancing := false,
      holdings_count := g.2.2 }
  | some ta =>
    match ta.find? (fun kv => kv.1.toLower == g.1.toLower) with
    | none =>
      { asset_class := g.1, current_value := g.2.1, current_percent := current_percent,
        target_percent := none, drift := none, needs_rebalancing := false,
        holdings_count := g.2.2 }
    | some kv =>
      let drift := current_percent - kv.2
      { asset_class := g.1, current_value := g.2.1, current_percent := current_percent,
        target_percent := some kv.2, drift := some drift,
        needs_rebalancing := decide (p.rebalance_threshold < |drift|),
        holdings_count := g.2.2 }

/-- `PortfolioService.calculate_asset_allocation` (portfolio_service.py lines
43-109) under the intended Decimal reading of the total: empty when there
are no holdings or the total value is zero, else the per-asset-class entries
stably sorted by current value descending.  The literal source semantics,
where reading the total raises TypeError for every active holding, is
`calculate_asset_allocation_py` below. -/
def calculate_asset_allocation (p : Portfolio) : List AllocationEntry :=
  if p.holdings = [] then []
  else
    let total := p.total_value_intended
    if total = 0 then []
    else
      ((groupByAssetClass p.holdings).map (mkAllocationEntry p total)).mergeSort
        (fun a b => decide (b.current_value ≤ a.current_value))

/-- Sum of the grouped values. -/
def sumGroupVals (gs : List (String × ℚ × Nat)) : ℚ := (gs.map (fun g => g.2.1)).sum

/-- C5 failing input: an ordinary portfolio with one active holding. -/
def portfolioC5bug : Portfolio :=
  { id := 1, user_id := 1, name := "Main",
    holdings := [{ portfolio_id := 1, symbol := "AAPL", quantity := 10, cost_basis := 150 }] }

/-- Python `str.lower()` (character-wise lowercasing; the strings compared
in the source are ASCII identifiers).  Extensionally `String.toLower`,
defined over the character list so that it evaluates by reduction. -/
def pyLower (s : String) : String := ⟨s.data.map Char.toLower⟩

/-- The `risk_adjustments` dict lookup with default 0
(services/recommendation.py lines 69-75): conservative −15, moderate 0,
aggressive +15, anything else 0, on the lowercased risk level. -/
def risk_adjustment (risk_level : String) : ℚ :=
  if pyLower risk_level == "conservative" then -15
  else if pyLower risk_level == "moderate" then 0
  else if pyLower risk_level == "aggressive" then 15
  else 0

/-- `if not age: age = 35` — the default also fires on a falsy age of 0. -/
def defaulted_age (age : Option Int) : Int :=
  match age with
  | none => 35
  | some a => if a = 0 then 35 else a

/-- Rule of 110 base: `max(20, min(90, 110 - age))`. -/
def base_stock_percentage (age : Option Int) : ℚ :=
  max 20 (min 90 (110 - (defaulted_age age : ℚ)))

/-- Risk-adjusted stock percentage, re-clamped to [20, 90]. -/
def stock_percentage (age : Option Int) (risk_level : String) : ℚ :=
  max 20 (min 90 (base_stock_percentage age + risk_adjustment risk_level))

/-- Bond percentage: the remainder, floored at 10. -/
def bond_percentage (age : Option Int) (risk_level : String) : ℚ :=
  max 10 (100 - stock_percentage age risk_level)

/-- `RecommendationService.get_target_allocation_by_age_and_risk`
(services/recommendation.py lines 56-96), keys in dict insertion order. -/
def get_target_allocation_by_age_and_risk (age : Option Int) (risk_level : String) :
    List (String × ℚ) :=
  let sp := stock_percentage age risk_level
  let bp := bond_percentage age risk_level
  if 70 ≤ sp then
    [("domestic_stocks", sp * 0.6), ("international_stocks", sp * 0.3),
     ("emerging_markets", sp * 0.1), ("bonds", bp * 0.8),
     ("real_estate", bp * 0.15), ("cash", bp * 0.05)]
  else
    [("domestic_stocks", sp * 0.7), ("international_stocks", sp * 0.3),
     ("bonds", bp * 0.85), ("real_estate", bp * 0.1), ("cash", bp * 0.05)]

/-- `clamp(lo, hi, x)` as the spec writes it. -/
def clamp (lo hi x : ℚ) : ℚ := max lo (min hi x)

/-- The C6 claim formula exactly as stated: stock percentage
`clamp(20, 90, 110 − age)` with the default 35 applied only when the age is
unknown, then the risk adjustment, re-clamped to [20, 90]. -/
def spec_stock_percentage (age : Option Int) (risk_level : String) : ℚ :=
  clamp 20 90 (clamp 20 90 (110 - ((age.getD 35 : Int) : ℚ)) + risk_adjustment risk_level)

/-- The C6 formula amended to what the code does: the default 35 also
applies to a (falsy) age of exactly 0. -/
def spec_stock_percentage_defaulted (age : Option Int) (risk_level : String) : ℚ :=
  let a : Int :=
    match age with
    | none => 35
    | some x => if x = 0 then 35 else x
  clamp 20 90 (clamp 20 90 (110 - (a : ℚ)) + risk_adjustment risk_level)

/-- `RecommendationType` (services/recommendation.py). -/
inductive RecommendationType
  | ASSET_ALLOCATION | REBALANCING | RISK_ADJUSTMENT | GOAL_ALIGNMENT
  | DIVERSIFICATION | TAX_OPTIMIZATION
deriving DecidableEq, Repr

/-- `RecommendationPriority`. -/
inductive RecommendationPriority
  | HIGH | MEDIUM | LOW
deriving DecidableEq, Repr

/-- The `Recommendation` dataclass; the fields the claims depend on.  The
description/action/reason/estimated_impact strings are free prose (some
with float formatting) read by no modelled logic, and goal_id is never set
by the service; they are omitted. -/
structure Recommendation where
  type : RecommendationType
  priority : RecommendationPriority
  title : String
  portfolio_id : Option Int := none
  target_allocation : Option (List (String × ℚ)) := none
deriving DecidableEq, Repr

/-- The user-profile attributes the recommendation service reads
(`user.date_of_birth`, `user.risk_tolerance`).  The ORM `User` model in
models/user.py defines `risk_tolerance` but no `date_of_birth` column even
though the service reads one (the registration schema carries the field);
the service is modelled over its declared inputs. -/
structure User where
  id : Int := 0
  date_of_birth : Option PyDate := none
  risk_tolerance : String := "moderate"
deriving DecidableEq, Repr

/-- `RecommendationService.calculate_age_from_birth_date`, with `today`
passed explicitly; the tuple comparison is spelled out. -/
def calculate_age_from_birth_date (today : PyDate) : Option PyDate → Option Int
  | none => none
  | some birth =>
    some (today.year - birth.year -
      (if today.month < birth.month ∨ (today.month = birth.month ∧ today.day < birth.day)
       then 1 else 0))

/-- Insertion-ordered dict accumulation for `analyze_portfolio_allocation`. -/
def addToAlloc : List (String × ℚ) → String → ℚ → List (String × ℚ)
  | [], k, v => [(k, v)]
  | (k', v') :: rest, k, v =>
    if k' == k then (k', v' + v) :: rest
    else (k', v') :: addToAlloc rest k v

/-- `holding.asset_class or "other"` (a str enum member is truthy). -/
def allocClassName (h : Holding) : String :=
  match h.asset_class with
  | some ac => ac.value
  | none => "other"

/-- Loop body of `analyze_portfolio_allocation` (services/recommendation.py
lines 105-114). -/
def allocStep (acc : List (String × ℚ)) (h : Holding) : List (String × ℚ) :=
  if h.is_active && decide (0 < h.quantity) then
    addToAlloc acc (allocClassName h) (h.quantity * pyOrQ h.current_price h.cost_basis)
  else acc

/-- `RecommendationService.analyze_portfolio_allocation` (lines 98-120)
under the intended Decimal reading of the portfolio total: empty when the
total value is non-positive, else per-class percentages. -/
def analyze_portfolio_allocation (p : Portfolio) : List (String × ℚ) :=
  if p.total_value_intended ≤ 0 then []
  else (p.holdings.foldl allocStep []).map (fun kv => (kv.1, kv.2 / p.total_value_intended * 100))

/-- The HIGH create-a-first-portfolio recommendation (lines 133-142). -/
def create_first_portfolio_rec (target : List (String × ℚ)) : Recommendation :=
  { type := .ASSET_ALLOCATION, priority := .HIGH,
    title := "Create Your First Investment Portfolio",
    target_allocation := some target }

/-- The significant-drift collection (lines 158-164): target classes whose
current share drifts from the target by more than 10 percentage points. -/
def significant_drifts (current target : List (String × ℚ)) : List (String × ℚ) :=
  target.filter (fun kv =>
    10 < |(((current.find? (fun c => c.1 == kv.1)).map Prod.snd).getD 0) - kv.2|)

/-- The per-portfolio rebalancing recommendation (lines 166-184): HIGH when
more than two classes drifted, else MEDIUM. -/
def rebalancing_rec (p : Portfolio) (ndrifts : Nat) (target : List (String × ℚ)) :
    Recommendation :=
  { type := .REBALANCING,
    priority := if 2 < ndrifts then .HIGH else .MEDIUM,
    title := "Rebalance " ++ p.name, portfolio_id := some p.id,
    target_allocation := some target }

/-- `portfolio.risk_level.value if portfolio.risk_level else fallback`. -/
def portfolio_risk_or (p : Portfolio) (fallback : String) : String :=
  match p.risk_level with
  | some r => r.value
  | none => fallback

/-- `RecommendationService.generate_asset_allocation_recommendations`
(lines 122-186). -/
def generate_asset_allocation_recommendations (today : PyDate) (user : User)
    (portfolios : List Portfolio) : List Recommendation :=
  if portfolios = [] then
    let age := calculate_age_from_birth_date today user.date_of_birth
    let risk_level := pyOrStr user.risk_tolerance "moderate"
    [create_first_portfolio_rec (get_target_allocation_by_age_and_risk age risk_level)]
  else
    let age := calculate_age_from_birth_date today user.date_of_birth
    let user_risk_level := pyOrStr user.risk_tolerance "moderate"
    portfolios.flatMap (fun p =>
      if p.is_active = false then []
      else
        let current := analyze_portfolio_allocation p
        let target := get_target_allocation_by_age_and_risk age (portfolio_risk_or p user_risk_level)
        let drifts := significant_drifts current target
        if drifts = [] then []
        else [rebalancing_rec p drifts.length target])

/-- The MEDIUM risk-reduction recommendation (lines 204-214). -/
def risk_reduce_rec (p : Portfolio) : Recommendation :=
  { type := .RISK_ADJUSTMENT, priority := .MEDIUM,
    title := "Consider Reducing Risk in " ++ p.name, portfolio_id := some p.id }

/-- The LOW growth recommendation (lines 216-226). -/
def risk_growth_rec (p : Portfolio) : Recommendation :=
  { type := .RISK_ADJUSTMENT, priority := .LOW,
    title := "Consider Higher Growth Potential in " ++ p.name, portfolio_id := some p.id }

/-- `RecommendationService.generate_risk_recommendations` (lines 189-228);
`if age and age > 55 ...` with Python truthiness on the age. -/
def generate_risk_recommendations (today : PyDate) (user : User)
    (portfolios : List Portfolio) : List Recommendation :=
  let age := calculate_age_from_birth_date today user.date_of_birth
  portfolios.flatMap (fun p =>
    if p.is_active = false then []
    else
      let portfolio_risk := portfolio_risk_or p "moderate"
      if intTruthy age && decide (55 < age.getD 0) && (portfolio_risk == "aggressive") then
        [risk_reduce_rec p]
      else if intTruthy age && decide (age.getD 0 < 35) && (portfolio_risk == "conservative") then
        [risk_growth_rec p]
      else [])

/-- Count of active holdings (line 239). -/
def active_holdings_count (p : Portfolio) : Nat :=
  (p.holdings.filter (fun h => h.is_active)).length

/-- Loop body of the largest-weight computation (lines 255-260). -/
def concentrationStep (p : Portfolio) (largest : ℚ) (h : Holding) : ℚ :=
  if h.is_active && decide (0 < h.quantity) then
    max largest (h.quantity * pyOrQ h.current_price h.cost_basis / p.total_value_intended * 100)
  else largest

/-- `largest_holding_percent` over the portfolio holdings. -/
def largest_holding_percent (p : Portfolio) : ℚ :=
  p.holdings.foldl (concentrationStep p) 0

/-- The HIGH few-holdings diversification recommendation (lines 241-251). -/
def diversify_rec (p : Portfolio) : Recommendation :=
  { type := .DIVERSIFICATION, priority := .HIGH,
    title := "Improve Diversification in " ++ p.name, portfolio_id := some p.id }

/-- The MEDIUM concentration-risk recommendation (lines 262-272). -/
def concentration_rec (p : Portfolio) : Recommendation :=
  { type := .DIVERSIFICATION, priority := .MEDIUM,
    title := "Reduce Concentration Risk in " ++ p.name, portfolio_id := some p.id }

/-- `RecommendationService.generate_diversification_recommendations`
(lines 230-274) under the intended Decimal reading of the portfolio total:
inactive or non-positive-value portfolios are skipped.  The literal source
semantics, where the `total_value <= 0` guard itself raises TypeError for
every active portfolio, is `generate_diversification_recommendations_py`
below. -/
def generate_diversification_recommendations (portfolios : List Portfolio) :
    List Recommendation :=
  portfolios.flatMap (fun p =>
    if p.is_active = false ∨ p.total_value_intended ≤ 0 then []
    else
      (if active_holdings_count p < 3 then [diversify_rec p] else []) ++
      (if 0 < active_holdings_count p ∧ 25 < largest_holding_percent p then
        [concentration_rec p] else []))

/-- The `priority_order` ranking dict (lines 287-291). -/
def priority_order : RecommendationPriority → Nat
  | .HIGH => 0
  | .MEDIUM => 1
  | .LOW => 2

/-- The sort key comparison used by `recommendations.sort(key=...)`. -/
def recLE (a b : Recommendation) : Bool :=
  decide (priority_order a.priority ≤ priority_order b.priority)

/-- `RecommendationService.generate_all_recommendations` (lines 276-295):
concatenate the three generators and stable-sort by priority (Python
`list.sort` is stable; modelled by the stable `List.mergeSort`). -/
def generate_all_recommendations (today : PyDate) (user : User)
    (portfolios : List Portfolio) : List Recommendation :=
  (generate_asset_allocation_recommendations today user portfolios ++
   generate_risk_recommendations today user portfolios ++
   generate_diversification_recommendations portfolios).mergeSort recLE

/-- C9 failing input: an active portfolio with no holdings. -/
def portfolioC9 : Portfolio :=
  { id := 7, user_id := 1, name := "Empty", holdings := [] }

/-- C9 second failing input: an active two-holding portfolio whose intended
total value is 100, with one holding of intended weight 80%. -/
def holdingC9big : Holding :=
  { portfolio_id := 3, symbol := "BIG", quantity := 1, cost_basis := 80 }

def holdingC9small : Holding :=
  { portfolio_id := 3, symbol := "SML", quantity := 1, cost_basis := 20 }

def portfolioC9w : Portfolio :=
  { id := 3, user_id := 1, name := "Conc", holdings := [holdingC9big, holdingC9small] }

/-- A Python value of monetary kind flowing through `Portfolio.total_value`:
either a `Decimal` (modelled as ℚ) or the `Numeric("0.00")` instance of the
SQLAlchemy column type class that portfolio.py lines 78 and 80 create
(`Numeric` there is the sqlalchemy import, not `decimal.Decimal`). -/
inductive PyNum
  | dec : ℚ → PyNum
  | numericTypeObject : PyNum
deriving DecidableEq, Repr

/-- Python `total + x` with `x` a Decimal: the type object defines no
arithmetic dunders, so CPython raises TypeError (the Decimal argument is
never consumed). -/
def pyAdd : PyNum → ℚ → Except String PyNum
  | .dec a, b => .ok (.dec (a + b))
  | .numericTypeObject, _ =>
    .error "TypeError: unsupported operand type for +=: Numeric and Decimal"

/-- Python `total == 0`: a Decimal compares numerically; the type object
falls back to identity equality and is simply not equal (no exception). -/
def pyEqZero : PyNum → Bool
  | .dec a => a == 0
  | .numericTypeObject => false

/-- Python `total <= 0`: the type object supports no ordering, so the
comparison raises TypeError. -/
def pyLeZero : PyNum → Except String Bool
  | .dec a => .ok (decide (a ≤ 0))
  | .numericTypeObject =>
    .error "TypeError: <= not supported between instances of Numeric and int"

/-- Python `value / total` (and `float(total)`): raises on the type object. -/
def pyDivTotal (v : ℚ) : PyNum → Except String ℚ
  | .dec t => .ok (v / t)
  | .numericTypeObject =>
    .error "TypeError: unsupported operand type for /: Decimal and Numeric"

/-- Loop body of the literal `Portfolio.total_value`. -/
def totalValueStepPy (total : PyNum) (h : Holding) : Except String PyNum :=
  if h.is_active && qTruthy h.current_price then
    pyAdd total (h.quantity * h.current_price.getD 0)
  else if h.is_active then pyAdd total (h.quantity * h.cost_basis)
  else .ok total

/-- `Portfolio.total_value` exactly as written (portfolio.py lines 74-87):
the accumulator starts as `Numeric("0.00")` — an instance of the imported
SQLAlchemy type class, not a Decimal — so the first `total += ...` on an
active holding raises TypeError, and with no active holding the type object
itself is returned (also by the empty-holdings early return). -/
def Portfolio.total_value_py (p : Portfolio) : Except String PyNum :=
  if p.holdings = [] then .ok .numericTypeObject
  else p.holdings.foldlM totalValueStepPy PyNum.numericTypeObject

/-- One allocation entry with the literal total: the percent computation
divides the group value by the total, raising on the type object. -/
def mkAllocationEntryPy (p : Portfolio) (total : PyNum) (g : String × ℚ × Nat) :
    Except String AllocationEntry :=
  match total with
  | .dec t => .ok (mkAllocationEntry p t g)
  | .numericTypeObject =>
    .error "TypeError: unsupported operand type for /: Decimal and Numeric"

/-- `calculate_asset_allocation` with the literal semantics of
`Portfolio.total_value`: the TypeError from reading the total propagates
(any active holding); a type-object total fails the `== 0` identity test
without raising, and the grouping loop then runs over the remaining
(inactive-only) holdings, so the per-group division is only reached when
groups exist. -/
def calculate_asset_allocation_py (p : Portfolio) :
    Except String (List AllocationEntry) :=
  if p.holdings = [] then .ok []
  else
    match p.total_value_py with
    | .error e => .error e
    | .ok total =>
      if pyEqZero total then .ok []
      else
        match (groupByAssetClass p.holdings).mapM (mkAllocationEntryPy p total) with
        | .error e => .error e
        | .ok entries =>
          .ok (entries.mergeSort (fun a b => decide (b.current_value ≤ a.current_value)))

/-- Loop body of the concentration computation with the literal total: the
source re-reads `float(portfolio.total_value)` for each counted holding
(recommendation.py line 259), so each step re-evaluates the property and
divides by it. -/
def concentrationStepPyM (p : Portfolio) (largest : ℚ) (h : Holding) : Except String ℚ :=
  if h.is_active && decide (0 < h.quantity) then
    match p.total_value_py with
    | .error e => .error e
    | .ok total =>
      (pyDivTotal (h.quantity * pyOrQ h.current_price h.cost_basis) total).map
        (fun w => max largest (w * 100))
  else .ok largest

/-- Per-portfolio body of the diversification generator (recommendation.py
lines 239-272) past the guard, with the literal total in the concentration
loop. -/
def divPerPortfolioBodyPy (p : Portfolio) : Except String (List Recommendation) :=
  let count := active_holdings_count p
  let highRecs := if count < 3 then [diversify_rec p] else []
  if 0 < count then
    match p.holdings.foldlM (concentrationStepPyM p) 0 with
    | .error e => .error e
    | .ok largest =>
      .ok (highRecs ++ (if 25 < largest then [concentration_rec p] else []))
  else .ok highRecs

/-- One iteration of `generate_diversification_recommendations` with the
literal total: `not portfolio.is_active` short-circuits, otherwise the
guard evaluates `portfolio.total_value` (TypeError on any active holding)
and compares it with 0 (TypeError on the type object). -/
def divPerPortfolioPy (p : Portfolio) : Except String (List Recommendation) :=
  if p.is_active = false then .ok []
  else
    match p.total_value_py with
    | .error e => .error e
    | .ok total =>
      match pyLeZero total with
      | .error e => .error e
      | .ok true => .ok []
      | .ok false => divPerPortfolioBodyPy p

/-- `generate_diversification_recommendations` with the literal semantics of
`Portfolio.total_value`: an exception raised while handling any portfolio
propagates out of the whole call. -/
def generate_diversification_recommendations_py (portfolios : List Portfolio) :
    Except String (List Recommendation) :=
  portfolios.foldlM (fun acc p => (divPerPortfolioPy p).map (fun recs => acc ++ recs)) []

lemma update_buy_eq (t : Transaction) (h : Holding) (q : ℚ)
    (hbuy : t.is_buy_transaction = true) (hqty : t.quantity = some q) (hpos : 0 < q)
    (hq : 0 ≤ h.quantity) :
    t.update_holding_after_transaction h =
      { h with
        quantity := h.quantity + q,
        cost_basis := (h.quantity * h.cost_basis + q * (t.effective_price).getD 0) /
          (h.quantity + q) } := by
  have hne : q ≠ 0 := ne_of_gt hpos
  have hposq : (0 : ℚ) < h.quantity + q := by linarith
  simp only [Transaction.update_holding_after_transaction, hbuy, hqty, qTruthy,
    Option.getD_some, Bool.true_and, bne_iff_ne, ne_eq, hne, not_false_eq_true,
    if_true, if_pos hposq]

lemma applyAll_cons (t : Transaction) (ts : List Transaction) (h : Holding) :
    applyAll (t :: ts) h = applyAll ts (t.update_holding_after_transaction h) := rfl

/-- Folding a non-empty list of positive buys over a holding with non-negative
quantity: total quantity adds up, total cost adds up, all other fields kept. -/
lemma applyAll_buys (txs : List Transaction) :
    ∀ h : Holding, 0 ≤ h.quantity → (∀ t ∈ txs, IsPositiveBuy t) → txs ≠ [] →
    applyAll txs h =
      { h with
        quantity := h.quantity + sumQ txs,
        cost_basis := (h.quantity * h.cost_basis + sumQP txs) / (h.quantity + sumQ txs) } := by
  induction txs with
  | nil => intro h _ _ hne; exact absurd rfl hne
  | cons t ts ih =>
    intro h hq hb _
    obtain ⟨hbuy, q, hqty, hpos⟩ := hb t (List.mem_cons_self t ts)
    have hstep := update_buy_eq t h q hbuy hqty hpos hq
    have hsumQ : sumQ (t :: ts) = q + sumQ ts := by
      simp [sumQ, hqty]
    have hsumQP : sumQP (t :: ts) = q * (t.effective_price).getD 0 + sumQP ts := by
      simp [sumQP, hqty]
    cases ts with
    | nil =>
      rw [applyAll_cons, hstep]
      simp [applyAll, sumQ, sumQP, hqty]
    | cons t2 ts2 =>
      have hq' : 0 ≤ (t.update_holding_after_transaction h).quantity := by
        rw [hstep]; dsimp only; linarith
      have hrest := ih (t.update_holding_after_transaction h) hq'
        (fun x hx => hb x (List.mem_cons_of_mem t hx)) (by simp)
      rw [applyAll_cons, hrest, hstep]
      have hne : h.quantity + q ≠ 0 := ne_of_gt (by linarith : (0 : ℚ) < h.quantity + q)
      have hcancel : (h.quantity + q) *
          ((h.quantity * h.cost_basis + q * (t.effective_price).getD 0) / (h.quantity + q)) =
          h.quantity * h.cost_basis + q * (t.effective_price).getD 0 := by
        rw [mul_comm, div_mul_cancel₀ _ hne]
      simp only [Holding.mk.injEq, hsumQ, hsumQP, true_and, and_true]
      refine ⟨?_, ?_⟩
      · dsimp only; ring
      · dsimp only; rw [hcancel]; ring

/-- C1.  Weighted-average cost-basis law: starting from an empty position,
any non-empty sequence of buy-type transactions with positive quantities on
the symbol of the holding yields quantity `Σ q_i` and per-unit cost basis
`Σ (q_i * p_i) / Σ q_i` (with `p_i` the effective price), the outcome is
independent of the order of the buys, and the divide-by-zero guard sets the
cost basis to 0 when the new total quantity is 0. -/
theorem C1_weighted_average_cost_basis
    (h0 : Holding) (txs : List Transaction)
    (hempty : h0.quantity = 0)
    (hne : txs ≠ [])
    (_hsym : ∀ t ∈ txs, t.symbol = h0.symbol)
    (hb : ∀ t ∈ txs, IsPositiveBuy t) :
    (applyAll txs h0).quantity = sumQ txs ∧
    (applyAll txs h0).cost_basis = sumQP txs / sumQ txs ∧
    (∀ txs' : List Transaction, txs'.Perm txs → applyAll txs' h0 = applyAll txs h0) ∧
    (∀ (t : Transaction) (h : Holding) (q : ℚ), t.is_buy_transaction = true →
      t.quantity = some q → q ≠ 0 → h.quantity + q = 0 →
      (t.update_holding_after_transaction h).cost_basis = 0) := by
  have hq0 : 0 ≤ h0.quantity := by rw [hempty]
  have hmain := applyAll_buys txs h0 hq0 hb hne
  refine ⟨?_, ?_, ?_, ?_⟩
  · rw [hmain]; dsimp only; rw [hempty, zero_add]
  · rw [hmain]; dsimp only; rw [hempty, zero_mul, zero_add, zero_add]
  · intro txs' hperm
    have hb' : ∀ t ∈ txs', IsPositiveBuy t := fun t ht => hb t (hperm.subset ht)
    have hne' : txs' ≠ [] := by
      intro hcontra
      rw [hcontra] at hperm
      exact hne (List.Perm.nil_eq hperm).symm
    have hQ : sumQ txs' = sumQ txs := by
      unfold sumQ
      exact (hperm.map (fun t => t.quantity.getD 0)).sum_eq
    have hQP : sumQP txs' = sumQP txs := by
      unfold sumQP
      exact (hperm.map (fun t => t.quantity.getD 0 * (t.effective_price).getD 0)).sum_eq
    rw [applyAll_buys txs' h0 hq0 hb' hne', hmain, hQ, hQP]
  · intro t h q hbuy hqty hqne hzero
    have : ¬ (0 : ℚ) < h.quantity + q := by rw [hzero]; exact lt_irrefl 0
    simp only [Transaction.update_holding_after_transaction, hbuy, hqty, qTruthy,
      Option.getD_some, Bool.true_and, bne_iff_ne, ne_eq, hqne, not_false_eq_true,
      if_true, if_neg this]

theorem C1_witness :
    h0A.quantity = 0 ∧ [buyA1, buyA2] ≠ ([] : List Transaction) ∧
    (applyAll [buyA1, buyA2] h0A).quantity = sumQ [buyA1, buyA2] ∧
    (applyAll [buyA1, buyA2] h0A).cost_basis = sumQP [buyA1, buyA2] / sumQ [buyA1, buyA2] ∧
    (applyAll [buyA1, buyA2] h0A).quantity = 15 ∧
    (applyAll [buyA1, buyA2] h0A).cost_basis = 160 := by
  have hb : ∀ t ∈ [buyA1, buyA2], IsPositiveBuy t := by
    intro t ht
    simp only [List.mem_cons, List.not_mem_nil, or_false] at ht
    rcases ht with rfl | rfl
    · exact ⟨rfl, 10, rfl, by norm_num⟩
    · exact ⟨rfl, 5, rfl, by norm_num⟩
  have hsym : ∀ t ∈ [buyA1, buyA2], t.symbol = h0A.symbol := by
    intro t ht
    simp only [List.mem_cons, List.not_mem_nil, or_false] at ht
    rcases ht with rfl | rfl
    · rfl
    · rfl
  have hmain := C1_weighted_average_cost_basis h0A [buyA1, buyA2] rfl (by simp) hsym hb
  refine ⟨rfl, by simp, hmain.1, hmain.2.1, ?_, ?_⟩
  · rw [hmain.1]
    norm_num [sumQ, buyA1, buyA2]
  · rw [hmain.2.1]
    norm_num [sumQP, sumQ, Transaction.effective_price, Transaction.net_amount, buyA1, buyA2]

/-- C2.  Sell invariance: a sell-type transaction with positive quantity `s`
maps the holding to the same record with quantity `max 0 (q - s)`; cost basis
and every other field are unchanged, and an oversell is clamped to 0. -/
theorem C2_sell_invariance
    (h : Holding) (t : Transaction) (s : ℚ)
    (hsell : t.is_sell_transaction = true)
    (hqty : t.quantity = some s) (hs : 0 < s) :
    t.update_holding_after_transaction h = { h with quantity := max 0 (h.quantity - s) } ∧
    (h.quantity ≤ s → (t.update_holding_after_transaction h).quantity = 0) := by
  have hnotbuy : t.is_buy_transaction = false := by
    simp only [Transaction.is_sell_transaction, Bool.or_eq_true, beq_iff_eq] at hsell
    rcases hsell with h1 | h1 <;>
      simp [Transaction.is_buy_transaction, h1]
  have hne : s ≠ 0 := ne_of_gt hs
  have hmain : t.update_holding_after_transaction h =
      { h with quantity := max 0 (h.quantity - s) } := by
    simp [Transaction.update_holding_after_transaction, hnotbuy, hsell, hqty, qTruthy, hne]
  refine ⟨hmain, fun hle => ?_⟩
  rw [hmain]
  dsimp only
  exact max_eq_left (by linarith)

theorem C2_witness :
    (0 : ℚ) < 3 ∧
    sellB.update_holding_after_transaction hB = { hB with quantity := 12 } := by
  refine ⟨by norm_num, ?_⟩
  have hmain := (C2_sell_invariance hB sellB 3 rfl rfl (by norm_num)).1
  rw [hmain]
  have hq : hB.quantity - 3 = 12 := by norm_num [hB]
  rw [hq, max_eq_right (by norm_num : (0 : ℚ) ≤ 12)]

/-- C3.  The code, evaluated at the failing input: a sell of the full
quantity of an existing active holding is rejected with the no-position
error and nothing is persisted (the holding is not deactivated, the
transaction is not recorded), because the active-holding lookup criterion
`Holding.is_active is True` is the constant `False`.  The claim, and the
tests shipped with the code, expect this sell to succeed and deactivate the
holding. -/
theorem C3_full_sell_rejected_despite_active_holding :
    recordTransaction dbC3 sellC3 =
      (dbC3, some "Cannot sell AAPL: no existing holding found") := by decide

/-- C4 counterexample: the `is True` predicates are not truthy — both are
the constant `False` — and on a concrete table holding an inactive and an
active row the list query returns nothing at all, so it is false that
inactive rows pass these predicates unfiltered. -/
theorem C4_counterexample :
    transactionIsActiveIsTrue = false ∧ holdingIsActiveIsTrue = false ∧
    inactiveTxC4.is_active = false ∧ getTransactionsQuery dbC4 1 = [] := by decide

/-- C4 as amended: each `is_active is True` predicate written against an ORM
column evaluates to a constant independent of the row — but that constant is
the falsy `False`, not a truthy value — so instead of disabling the intended
exclusion of inactive rows it excludes every row: the transaction list query
matches no rows and the active-holding lookup never finds a holding,
whatever value is_active has on each row. -/
theorem C4_is_true_predicates_constant_false :
    (∀ (db : DBState) (userId : Int), getTransactionsQuery db userId = []) ∧
    (∀ (hs : List Holding) (tx : Transaction) (f : Holding → Holding),
      updateFirst (findExistingHoldingPred tx) f hs = none) := by
  constructor
  · intro db userId
    simp [getTransactionsQuery, transactionIsActiveIsTrue, pyIs]
  · intro hs tx f
    induction hs with
    | nil => rfl
    | cons x xs ih =>
      simp [updateFirst, findExistingHoldingPred, holdingIsActiveIsTrue, pyIs, ih]

/-- C8 counterexample: with a known price of 0 the general rule of the claim gives
value `quantity * 0 = 0`, but the code values the holding at its cost basis
(Python `or` treats the zero price as absent). -/
theorem C8_counterexample :
    holdingC8.current_price = some 0 ∧
    holdingC8.current_value = 5 ∧ holdingC8.quantity * 0 = 0 ∧ (5 : ℚ) ≠ 0 := by
  refine ⟨rfl, ?_, ?_, by norm_num⟩
  · norm_num [Holding.current_value, pyOrQ, holdingC8]
  · norm_num

/-- C8 as amended: a holding with no `current_price` values at
`quantity * cost_basis` and has zero unrealized gain/loss; in general the
value is `quantity * current_price` when a non-zero price is known, and
`quantity * cost_basis` when the price is absent or zero. -/
theorem C8_valuation_fallback (h : Holding) :
    (h.current_price = none →
      h.current_value = h.quantity * h.cost_basis ∧ h.unrealized_gain_loss = 0) ∧
    (∀ pr : ℚ, h.current_price = some pr → pr ≠ 0 → h.current_value = h.quantity * pr) ∧
    (h.current_price = some 0 → h.current_value = h.quantity * h.cost_basis) := by
  refine ⟨fun hnone => ⟨?_, ?_⟩, fun pr hpr hne => ?_, fun hzero => ?_⟩
  · simp [Holding.current_value, pyOrQ, hnone]
  · simp [Holding.unrealized_gain_loss, Holding.current_value, Holding.total_cost_basis,
      pyOrQ, hnone]
  · simp [Holding.current_value, pyOrQ, hpr, hne]
  · simp [Holding.current_value, pyOrQ, hzero]

theorem C8_witness :
    holdingC8w.current_price = none ∧
    holdingC8w.current_value = holdingC8w.quantity * holdingC8w.cost_basis ∧
    holdingC8w.unrealized_gain_loss = 0 := by
  have hmain := (C8_valuation_fallback holdingC8w).1 rfl
  exact ⟨rfl, hmain.1, hmain.2⟩

lemma totalValueStep_eq (total : ℚ) (h : Holding) :
    totalValueStep total h = total + if h.is_active then h.current_value else 0 := by
  cases hact : h.is_active with
  | false => simp [totalValueStep, hact]
  | true =>
    cases hp : h.current_price with
    | none => simp [totalValueStep, hact, qTruthy, hp, Holding.current_value, pyOrQ]
    | some pr =>
      by_cases hz : pr = 0
      · simp [totalValueStep, hact, qTruthy, hp, hz, Holding.current_value, pyOrQ]
      · simp [totalValueStep, hact, qTruthy, hp, hz, Holding.current_value, pyOrQ]

lemma total_value_foldl (l : List Holding) : ∀ acc : ℚ,
    l.foldl totalValueStep acc
    = acc + ((l.filter (fun h => h.is_active)).map Holding.current_value).sum := by
  induction l with
  | nil => intro acc; simp
  | cons h t ih =>
    intro acc
    rw [List.foldl_cons, totalValueStep_eq, ih]
    cases hact : h.is_active with
    | false => simp [hact]
    | true => simp [hact, add_assoc]

/-- The portfolio total value is the sum of the values of the active holdings. -/
lemma total_value_eq_sum (p : Portfolio) :
    p.total_value_intended = ((p.holdings.filter (fun h => h.is_active)).map Holding.current_value).sum := by
  unfold Portfolio.total_value_intended
  rw [total_value_foldl, zero_add]

lemma addToGroup_sum (gs : List (String × ℚ × Nat)) (k : String) (v : ℚ) :
    sumGroupVals (addToGroup gs k v) = sumGroupVals gs + v := by
  induction gs with
  | nil => simp [addToGroup, sumGroupVals]
  | cons g rest ih =>
    obtain ⟨k', v', n⟩ := g
    by_cases hk : (k' == k) = true
    · simp [addToGroup, hk, sumGroupVals]; ring
    · simp only [addToGroup, hk, if_false, Bool.false_eq_true]
      simp [sumGroupVals] at ih ⊢
      rw [ih]; ring

lemma groupBy_foldl_sum (l : List Holding) : ∀ gs : List (String × ℚ × Nat),
    sumGroupVals (l.foldl groupStep gs)
    = sumGroupVals gs + ((l.filter (fun h => h.is_active)).map Holding.current_value).sum := by
  induction l with
  | nil => intro gs; simp
  | cons h t ih =>
    intro gs
    rw [List.foldl_cons]
    cases hact : h.is_active with
    | false =>
      rw [ih]
      simp [groupStep, hact]
    | true =>
      rw [ih]
      simp only [groupStep, hact, if_true]
      rw [addToGroup_sum]
      simp [hact, add_assoc]

/-- The grouped values sum back to the portfolio total value. -/
lemma groupBy_sum (p : Portfolio) :
    sumGroupVals (groupByAssetClass p.holdings) = p.total_value_intended := by
  unfold groupByAssetClass
  rw [groupBy_foldl_sum, total_value_eq_sum]
  simp [sumGroupVals]

lemma mkAllocationEntry_fields (p : Portfolio) (total : ℚ) (g : String × ℚ × Nat) :
    (mkAllocationEntry p total g).current_percent = g.2.1 / total * 100 ∧
    (mkAllocationEntry p total g).current_value = g.2.1 := by
  unfold mkAllocationEntry
  cases p.target_allocation with
  | none => exact ⟨rfl, rfl⟩
  | some ta =>
    dsimp only
    cases ta.find? (fun kv => kv.1.toLower == g.1.toLower) with
    | none => exact ⟨rfl, rfl⟩
    | some kv => exact ⟨rfl, rfl⟩

lemma sum_percent_map (p : Portfolio) (total : ℚ) (gs : List (String × ℚ × Nat)) :
    ((gs.map (mkAllocationEntry p total)).map AllocationEntry.current_percent).sum
      = sumGroupVals gs / total * 100 := by
  induction gs with
  | nil => simp [sumGroupVals]
  | cons g rest ih =>
    simp only [List.map_cons, List.sum_cons, ih, (mkAllocationEntry_fields p total g).1]
    simp [sumGroupVals]
    ring

/-- Supporting evidence for the C5 verdict: under the intended Decimal
reading of the portfolio total (the one-token fix of the `Numeric("0.00")`
slip), the allocation behaves as the spec states — percents summing to
exactly 100 for positive totals, each entry carrying `value / total * 100`,
empty list at total zero.  The literal code never reaches these outcomes:
see `calculate_asset_allocation_py` and the C5 theorem. -/
lemma intended_allocation_sums (p : Portfolio) :
    (0 < p.total_value_intended →
      ((calculate_asset_allocation p).map AllocationEntry.current_percent).sum = 100 ∧
      ∀ e ∈ calculate_asset_allocation p,
        e.current_percent = e.current_value / p.total_value_intended * 100) ∧
    (p.total_value_intended = 0 → calculate_asset_allocation p = []) := by
  constructor
  · intro hpos
    have hne : p.total_value_intended ≠ 0 := ne_of_gt hpos
    have hnil : p.holdings ≠ [] := by
      intro hcontra
      apply hne
      rw [total_value_eq_sum, hcontra]
      simp
    have hcalc : calculate_asset_allocation p =
        ((groupByAssetClass p.holdings).map (mkAllocationEntry p p.total_value_intended)).mergeSort
          (fun a b => decide (b.current_value ≤ a.current_value)) := by
      unfold calculate_asset_allocation
      rw [if_neg hnil, if_neg hne]
    constructor
    · rw [hcalc]
      have hperm := (List.mergeSort_perm
        ((groupByAssetClass p.holdings).map (mkAllocationEntry p p.total_value_intended))
        (fun a b => decide (b.current_value ≤ a.current_value))).map
        AllocationEntry.current_percent
      rw [hperm.sum_eq, sum_percent_map, groupBy_sum, div_self hne, one_mul]
    · intro e he
      rw [hcalc] at he
      have hmem := (List.mergeSort_perm _ _).mem_iff.mp he
      obtain ⟨g, _, hg⟩ := List.mem_map.mp hmem
      have hf := mkAllocationEntry_fields p p.total_value_intended g
      rw [← hg, hf.1, hf.2]
  · intro hzero
    unfold calculate_asset_allocation
    by_cases hnil : p.holdings = []
    · rw [if_pos hnil]
    · rw [if_neg hnil]
      simp [hzero]

/-- C5.  The code, evaluated at the failing input: for a portfolio holding
one ordinary active position, reading `Portfolio.total_value` raises
TypeError (the `Numeric("0.00")` accumulator is the SQLAlchemy type class
and supports no `+=`), so `calculate_asset_allocation` raises instead of
returning the allocation whose percents the claim sums — while the spec,
the repo tests (test_portfolios.py expects `Decimal("16250.00")`) and the
`Decimal("0.00")` usage elsewhere in portfolio_service.py show the Decimal
sum is the intent (`intended_allocation_sums` proves the claimed behaviour
of that intent). -/
theorem C5_allocation_raises_type_error :
    portfolioC5bug.is_active = true ∧
    (∃ h ∈ portfolioC5bug.holdings, h.is_active = true) ∧
    portfolioC5bug.total_value_py =
      .error "TypeError: unsupported operand type for +=: Numeric and Decimal" ∧
    calculate_asset_allocation_py portfolioC5bug =
      .error "TypeError: unsupported operand type for +=: Numeric and Decimal" := by
  exact ⟨rfl, by decide, rfl, rfl⟩

/-- C6 counterexample: at the (falsy) age 0 the code defaults the age to 35
and derives 75% stocks, while the claim formula `clamp(20, 90, 110 − age)`
demands 90%. -/
theorem C6_counterexample :
    stock_percentage (some 0) "moderate" = 75 ∧
    spec_stock_percentage (some 0) "moderate" = 90 ∧
    stock_percentage (some 0) "moderate" ≠ spec_stock_percentage (some 0) "moderate" := by
  have hadj : risk_adjustment "moderate" = 0 := rfl
  have h1 : stock_percentage (some 0) "moderate" = 75 := by
    rw [stock_percentage, base_stock_percentage, hadj]
    norm_num [defaulted_age, min_def, max_def]
  have h2 : spec_stock_percentage (some 0) "moderate" = 90 := by
    rw [spec_stock_percentage, hadj]
    norm_num [clamp, min_def, max_def]
  exact ⟨h1, h2, by rw [h1, h2]; norm_num⟩

/-- C6 as amended: the derived stock percentage follows the claimed clamp
formula with the default 35 applied when the age is unknown or 0; bonds get
the remainder floored at 10; and scenario E (age 30, moderate) yields
80/20 with sub-splits 48/24/8 and 16/3/1. -/
theorem C6_target_allocation_derivation (age : Option Int) (risk_level : String) :
    stock_percentage age risk_level = spec_stock_percentage_defaulted age risk_level ∧
    bond_percentage age risk_level = max 10 (100 - stock_percentage age risk_level) ∧
    stock_percentage (some 30) "moderate" = 80 ∧
    bond_percentage (some 30) "moderate" = 20 ∧
    get_target_allocation_by_age_and_risk (some 30) "moderate" =
      [("domestic_stocks", 48), ("international_stocks", 24), ("emerging_markets", 8),
       ("bonds", 16), ("real_estate", 3), ("cash", 1)] := by
  have hadj : risk_adjustment "moderate" = 0 := rfl
  have hs30 : stock_percentage (some 30) "moderate" = 80 := by
    rw [stock_percentage, base_stock_percentage, hadj]
    norm_num [defaulted_age, min_def, max_def]
  have hb30 : bond_percentage (some 30) "moderate" = 20 := by
    rw [bond_percentage, hs30]
    norm_num [max_def]
  refine ⟨?_, rfl, hs30, hb30, ?_⟩
  · cases age with
    | none => rfl
    | some a => rfl
  · simp only [get_target_allocation_by_age_and_risk, hs30, hb30]
    norm_num

/-- C10.  Implicit totals: for every age and risk string the returned map
values sum to exactly 100, the bond percentage is exactly 100 minus the
stock percentage (the floor of 10 never binds because the stock percentage
is clamped into [20, 90]). -/
theorem C10_target_allocation_totals (age : Option Int) (risk_level : String) :
    ((get_target_allocation_by_age_and_risk age risk_level).map Prod.snd).sum = 100 ∧
    bond_percentage age risk_level = 100 - stock_percentage age risk_level ∧
    20 ≤ stock_percentage age risk_level ∧ stock_percentage age risk_level ≤ 90 := by
  have h20 : 20 ≤ stock_percentage age risk_level := by
    rw [stock_percentage]; exact le_max_left _ _
  have h90 : stock_percentage age risk_level ≤ 90 := by
    rw [stock_percentage]
    exact max_le (by norm_num) (min_le_left _ _)
  have hbond : bond_percentage age risk_level = 100 - stock_percentage age risk_level := by
    rw [bond_percentage]
    exact max_eq_right (by linarith)
  refine ⟨?_, hbond, h20, h90⟩
  simp only [get_target_allocation_by_age_and_risk]
  split
  · simp only [List.map_cons, List.map_nil, List.sum_cons, List.sum_nil]
    rw [hbond]; ring
  · simp only [List.map_cons, List.map_nil, List.sum_cons, List.sum_nil]
    rw [hbond]; ring

/-- C9.  The code, evaluated at two failing inputs.  For the active empty
portfolio, the guard `portfolio.total_value <= 0` compares the
`Numeric("0.00")` type object with 0 and raises TypeError — the portfolio
is not skipped, no recommendation list is returned at all.  For the active
two-holding portfolio (fewer than 3 active holdings, largest intended
weight 80% > 25%), reading `portfolio.total_value` already raises inside
the guard.  The claim describes the intended Decimal semantics, which the
code fails to implement for every active portfolio. -/
theorem C9_diversification_raises_type_error :
    portfolioC9.is_active = true ∧ active_holdings_count portfolioC9 < 3 ∧
    generate_diversification_recommendations_py [portfolioC9] =
      .error "TypeError: <= not supported between instances of Numeric and int" ∧
    portfolioC9w.is_active = true ∧ active_holdings_count portfolioC9w < 3 ∧
    generate_diversification_recommendations_py [portfolioC9w] =
      .error "TypeError: unsupported operand type for +=: Numeric and Decimal" := by
  exact ⟨rfl, by decide, rfl, rfl, by decide, rfl⟩

lemma recLE_trans : ∀ a b c : Recommendation,
    recLE a b = true → recLE b c = true → recLE a c = true := by
  intro a b c hab hbc
  simp only [recLE, decide_eq_true_eq] at hab hbc ⊢
  omega

lemma recLE_total : ∀ a b : Recommendation, (recLE a b || recLE b a) = true := by
  intro a b
  simp only [recLE, Bool.or_eq_true, decide_eq_true_eq]
  omega

/-- Stability of the priority sort: the sorted list restricted to any one
priority equals the input restricted to that priority. -/
lemma mergeSort_filter_priority (l : List Recommendation) (pr : RecommendationPriority) :
    (l.mergeSort recLE).filter (fun r => r.priority == pr) =
      l.filter (fun r => r.priority == pr) := by
  have hmempr : ∀ r ∈ l.filter (fun r => r.priority == pr), r.priority = pr := by
    intro r hr
    have := (List.mem_filter.mp hr).2
    simpa using this
  have hpair : (l.filter (fun r => r.priority == pr)).Pairwise
      (fun a b => recLE a b = true) := by
    apply List.pairwise_of_forall_mem_list
    intro a ha b hb
    simp [recLE, hmempr a ha, hmempr b hb]
  have hstable := List.sublist_mergeSort recLE_trans recLE_total hpair (List.filter_sublist l)
  have hperm : ((l.mergeSort recLE).filter (fun r => r.priority == pr)).Perm
      (l.filter (fun r => r.priority == pr)) := (List.mergeSort_perm l recLE).filter _
  have hsubf : (l.filter (fun r => r.priority == pr)).Sublist
      ((l.mergeSort recLE).filter (fun r => r.priority == pr)) := by
    have hself : (l.filter (fun r => r.priority == pr)).filter (fun r => r.priority == pr) =
        l.filter (fun r => r.priority == pr) :=
      List.filter_eq_self.mpr (by intro a ha; simpa using hmempr a ha)
    have hf := hstable.filter (fun r => r.priority == pr)
    rwa [hself] at hf
  exact (hsubf.eq_of_length hperm.length_eq.symm).symm

/-- C7.  Recommendation ordering: the list returned by
`generate_all_recommendations` is pairwise non-decreasing in the priority
rank HIGH < MEDIUM < LOW; the sort is stable (restricted to any one
priority it equals the generation-order concatenation restricted to that
priority); and in particular no LOW item ever precedes a HIGH item. -/
theorem C7_recommendation_ordering (today : PyDate) (user : User)
    (portfolios : List Portfolio) :
    (generate_all_recommendations today user portfolios).Pairwise
      (fun a b => priority_order a.priority ≤ priority_order b.priority) ∧
    (∀ pr : RecommendationPriority,
      (generate_all_recommendations today user portfolios).filter
          (fun r => r.priority == pr) =
        (generate_asset_allocation_recommendations today user portfolios ++
         generate_risk_recommendations today user portfolios ++
         generate_diversification_recommendations portfolios).filter
          (fun r => r.priority == pr)) ∧
    (generate_all_recommendations today user portfolios).Pairwise
      (fun a b => ¬ (a.priority = .LOW ∧ b.priority = .HIGH)) := by
  have hsorted := List.sorted_mergeSort recLE_trans recLE_total
    (generate_asset_allocation_recommendations today user portfolios ++
     generate_risk_recommendations today user portfolios ++
     generate_diversification_recommendations portfolios)
  refine ⟨?_, ?_, ?_⟩
  · exact hsorted.imp (fun hab => by simpa [recLE] using hab)
  · intro pr
    exact mergeSort_filter_priority _ pr
  · refine hsorted.imp (fun hab => ?_)
    intro hcontra
    obtain ⟨hl, hh⟩ := hcontra
    simp [recLE, hl, hh, priority_order] at hab

end FinApp
